import Mathlib

/-!
Shallow embedding of the Express-Web-Radio broadcast engine.

Source layout:
- `src/index.js` defines class `WebRadio` (option validation, `start`,
  `stop`, `connect` middleware).
- `src/player.js` defines class `Player` (`readSongs`,
  `createResponseSink`, `removeResponseSink`, `broadcastChunk`,
  `getBitRate`, `playNextSong`, `start`, `stop`).

The embedding keeps the source names where Lean allows; methods of the two
classes that share a JS name are disambiguated with a `player` / `webRadio`
name part. JavaScript runtime details that the code relies on (truthiness,
`parseInt` producing NaN, a method reference being truthy) are modelled
explicitly and documented at each definition.
-/

namespace WebRadioModel

/-! ## JavaScript value helpers -/

/-- A JavaScript option value, as far as the option validation in the
`WebRadio` constructor distinguishes them: `undefined`, a number (modelled
as an integer), a string, or a boolean. -/
inductive OptVal where
  | undef : OptVal
  | num (n : Int) : OptVal
  | str (s : String) : OptVal
  | bool (b : Bool) : OptVal
deriving DecidableEq, Repr

/-- JavaScript truthiness of an `OptVal`: `undefined`, `0`, the empty string
and `false` are falsy; everything else modelled here is truthy. -/
def truthy : OptVal → Bool
  | OptVal.undef => false
  | OptVal.num n => n != 0
  | OptVal.str s => s != ""
  | OptVal.bool b => b

/-- Result of a JavaScript numeric expression that may be NaN. -/
inductive JsNum where
  | nan : JsNum
  | int (n : Int) : JsNum
deriving DecidableEq, Repr

/-- Model of `parseInt` applied to an optional string (the `bit_rate` field
of an ffprobe stream, which is a decimal digit string when present):
`parseInt(undefined)` is NaN, a string with no leading digits parses to NaN,
and a digit string parses to its value. -/
def parseIntJs : Option String → JsNum
  | none => JsNum.nan
  | some s =>
    let ds := s.takeWhile Char.isDigit
    match ds.toNat? with
    | some n => JsNum.int n
    | none => JsNum.nan

/-- Model of `parseInt` applied directly to an `OptVal` (the configured
`bitrate` option): a number stringifies and reparses to itself for the
integers modelled here; a string goes through `parseIntJs`; `undefined` and
booleans parse to NaN. -/
def parseIntOfVal : OptVal → JsNum
  | OptVal.num n => JsNum.int n
  | OptVal.str s => parseIntJs (some s)
  | OptVal.undef => JsNum.nan
  | OptVal.bool _ => JsNum.nan

/-! ## Bitrate resolver (`Player.getBitRate`) -/

/-- Outcome of `await ffprobe(song)`: the promise rejects (tool error), or it
resolves with a `streams` array; for each stream only its `bit_rate` field
matters, recorded as `none` when the field is missing and `some s` when it is
the string `s`. -/
inductive ProbeResult where
  | reject : ProbeResult
  | resolve (streams : List (Option String)) : ProbeResult
deriving DecidableEq, Repr

/-- The body of the `try` block of `getBitRate` after the `||` chose the
probed value: `(await ffprobe(song)).streams[0].bit_rate` then `parseInt`.
A rejected promise throws; when `streams` is empty, `streams[0]` is
`undefined` and reading `.bit_rate` throws a TypeError; both throws land in
the `catch`, which returns `128000`. When the first stream exists,
`parseInt` of its `bit_rate` field is returned; `parseInt(undefined)` is
NaN, which is NOT an exception and therefore bypasses the catch. -/
def probeBranch : ProbeResult → JsNum
  | ProbeResult.reject => JsNum.int 128000
  | ProbeResult.resolve [] => JsNum.int 128000
  | ProbeResult.resolve (br :: _) => parseIntJs br

/-- `Player.getBitRate`:
`const bitRate = this._options.bitrate || (await ffprobe(song)).streams[0].bit_rate;
 return parseInt(bitRate);` inside `try`, with `catch` returning `128000`.
The `||` takes the configured option when truthy, otherwise evaluates the
probe expression (whose throws are absorbed by the catch). -/
def getBitRate (bitrate : OptVal) (probe : ProbeResult) : JsNum :=
  if truthy bitrate then parseIntOfVal bitrate else probeBranch probe

/-- The `bitrate` clause of the constructor validation in `index.js`:
`if (this.options.bitrate && typeof this.options.bitrate !== "number") throw`.
Returns `true` exactly when the constructor throws on the bitrate option. -/
def bitrateValidationRejects (v : OptVal) : Bool :=
  truthy v && !(match v with | OptVal.num _ => true | _ => false)

/-! ## Track catalog (`Player.readSongs`) -/

/-- One entry of the `withFileTypes` directory listing: its name and whether
the entry really is a file (the value `isFile()` would return). -/
structure Dirent where
  name : String
  isFile : Bool
deriving DecidableEq, Repr

/-- Truthiness of the expression `item.isFile` in `readSongs`: the code
references the `Dirent` method without calling it, so the expression values
to a function object, which is always truthy — regardless of whether the
entry is a file. (The intended call `item.isFile()` would return
`item.isFile` of the model.) -/
def isFileMethodRefTruthy (_ : Dirent) : Bool := true

/-- Model of `path.extname` for a plain file name (no separators): the
suffix starting at the last dot, except that a name whose only dot is its
first character has no extension. -/
def extname (name : String) : String :=
  let cs := name.toList
  if cs.contains '.' then
    let ext := cs.reverse.takeWhile (fun ch => ch != '.')
    let dotIdx := cs.length - ext.length - 1
    if dotIdx == 0 then "" else String.mk ('.' :: ext.reverse)
  else ""

/-- Swap two positions of a list, identity when either index is out of
range (models the array destructuring swap of the shuffle loop). -/
def listSwap (l : List String) (i j : Nat) : List String :=
  match l.get? i, l.get? j with
  | some x, some y => (l.set i y).set j x
  | _, _ => l

/-- The shuffle loop of `readSongs`, counting the loop index down from `i`
to `1`; `draw i` models `Math.floor(Math.random() * (i + 1))`, reduced
modulo `i + 1` so that it lies in `[0, i]` as in the source. -/
def fyAux (draw : Nat → Nat) : List String → Nat → List String
  | l, 0 => l
  | l, i + 1 => fyAux draw (listSwap l (i + 1) (draw (i + 1) % (i + 2))) i

/-- The in-place shuffle of `readSongs`: `for (let i = songs.length - 1; i > 0; i--)`. -/
def fisherYates (l : List String) (draw : Nat → Nat) : List String :=
  match l.length with
  | 0 => l
  | n + 1 => fyAux draw l n

/-- `Player.readSongs`: list the directory with file types, keep entries for
which `item.isFile && path.extname(item.name) === ".mp3"`, map to names, and
shuffle when the option is set. `draw` supplies the random values of the
shuffle loop. -/
def readSongs (shuffle : Bool) (entries : List Dirent) (draw : Nat → Nat) : List String :=
  let songs := (entries.filter
    (fun item => isFileMethodRefTruthy item && (extname item.name == ".mp3"))).map
    (fun item => item.name)
  if shuffle then fisherYates songs draw else songs

/-! ## Sink registry -/

/-- A listener sink (a `PassThrough` stream): the chunks successfully
written to it, whether writes on it fail (models a broken/destroyed
channel), and whether `destroy()` has been called on it. -/
structure Sink where
  written : List Nat
  failed : Bool
  destroyed : Bool
deriving DecidableEq, Repr

/-- A fresh `PassThrough()` as created by `createResponseSink`. -/
def freshSink : Sink := { written := [], failed := false, destroyed := false }

/-- The `this.sinks` JS `Map`, in insertion order. -/
abbrev Registry := List (String × Sink)

/-- `Map.get`: the sink stored under `id`, if any. -/
def mapGet (sinks : Registry) (id : String) : Option Sink :=
  (sinks.find? (fun p => p.1 == id)).map (fun p => p.2)

/-- `Map.set`: replace the binding when the key is present, else append
(JS `Map` preserves insertion order). -/
def mapSet (sinks : Registry) (id : String) (v : Sink) : Registry :=
  if sinks.any (fun p => p.1 == id) then
    sinks.map (fun p => if p.1 == id then (id, v) else p)
  else sinks ++ [(id, v)]

/-- `Map.delete`: drop the binding of `id` (unique in a JS `Map`). -/
def mapDelete (sinks : Registry) (id : String) : Registry :=
  sinks.filter (fun p => p.1 != id)

/-- `sink.destroy()` observed on the sink object. -/
def sinkDestroy (s : Sink) : Sink := { s with destroyed := true }

/-- `Player.createResponseSink` with the random id passed explicitly:
creates a fresh `PassThrough`, stores it under the id, returns both. -/
def createResponseSink (id : String) (sinks : Registry) : Registry × Sink :=
  (mapSet sinks id freshSink, freshSink)

/-- `Player.removeResponseSink`:
`const sink = this.sinks.get(id) || null; if (sink) sink.destroy();
 this.sinks.delete(id);`
Returns the updated registry together with the destroyed sink, if one was
present. -/
def removeResponseSink (sinks : Registry) (id : String) : Registry × Option Sink :=
  match mapGet sinks id with
  | some s => (mapDelete sinks id, some (sinkDestroy s))
  | none => (mapDelete sinks id, none)

/-- One write of `broadcastChunk`: `sink.write(chunk)`. A write on a failed
channel delivers nothing but does not throw synchronously (Node signals the
failure asynchronously), so the loop continues either way. -/
def sinkWrite (s : Sink) (c : Nat) : Sink :=
  if s.failed then s else { s with written := s.written ++ [c] }

/-- `Player.broadcastChunk`: `for (const [, sink] of this.sinks) sink.write(chunk);`
No entry is added or removed; every registered sink is written to in
registry order. -/
def broadcastChunk (sinks : Registry) (c : Nat) : Registry :=
  sinks.map (fun p => (p.1, sinkWrite p.2 c))

/-! ## Player state and the lifecycle steps -/

/-- The mutable fields of a `Player` instance. `currentSongStream` holds the
remaining chunks of the open byte source (`none` models the JS `null`). -/
structure PlayerState where
  currentSongStream : Option (List Nat)
  sinks : Registry
  songs : List String
  currentSong : Option String
  playing : Bool
deriving DecidableEq, Repr

/-- Observable side effects of the lifecycle steps, in program order:
a `sink.write(chunk)` call, a `sink.end()` call, a
`_currentSongStream.destroy()` call, and the opening of a new track.
`logFn` calls are omitted: the spec treats logging as a no-op capability. -/
inductive Ev where
  | wrote (id : String) (c : Nat) : Ev
  | sinkEnded (id : String) : Ev
  | streamDestroyed : Ev
  | trackStarted (name : String) : Ev
deriving DecidableEq, Repr

/-- Errors the embedded methods can raise: the two contract errors thrown
by `WebRadio`, and a JS `TypeError` (calling a method on `null`/`undefined`,
e.g. `destroy()` on a null stream). -/
inductive JsError where
  | notPlaying : JsError
  | alreadyPlaying : JsError
  | typeError : JsError
deriving DecidableEq, Repr

/-- The `sink.end()` calls of a teardown loop
(`for (const [, sink] of this.sinks) sink.end();`), in registry order. -/
def endAllEvents (sinks : Registry) : List Ev :=
  sinks.map (fun p => Ev.sinkEnded p.1)

/-- `Player.stop(graceful)`: unconditionally clears the queue and the
playing flag; when not graceful it additionally destroys the current stream
(a TypeError if the stream is null), ends every sink and clears the
registry. -/
def playerStop (graceful : Bool) (st : PlayerState) : Except JsError (PlayerState × List Ev) :=
  let st1 := { st with songs := [], playing := false }
  if !graceful then
    match st1.currentSongStream with
    | none => Except.error JsError.typeError
    | some _ =>
      Except.ok ({ st1 with currentSongStream := none, sinks := [] },
        Ev.streamDestroyed :: endAllEvents st1.sinks)
  else Except.ok (st1, [])

/-- `WebRadio.stop(graceful)`: throws `NotPlaying` when the playing flag of
the player is down, otherwise delegates to `Player.stop`. -/
def webRadioStop (graceful : Bool) (st : PlayerState) : Except JsError (PlayerState × List Ev) :=
  if !st.playing then Except.error JsError.notPlaying
  else playerStop graceful st

/-- The tail of `playNextSong` after the empty-queue block: shift the next
song off the queue, open its byte source (`trackChunks` gives the content of
each track), and mark the player as playing. A shift on an empty queue
yields `undefined`, and the subsequent `path.join(..., undefined)` throws a
TypeError. -/
def startTrack (trackChunks : String → List Nat) (st : PlayerState) :
    Except JsError (PlayerState × List Ev) :=
  match st.songs with
  | [] => Except.error JsError.typeError
  | s :: rest =>
    Except.ok ({ st with
        songs := rest,
        currentSong := some s,
        currentSongStream := some (trackChunks s),
        playing := true },
      [Ev.trackStarted s])

/-- `Player.playNextSong` up to the registration of the stream handlers:
on an empty queue, either refill it from `readSongs()` (modelled by the
`catalog` parameter) when looping, or tear everything down (destroy the
stream, clear the playing flag, end every sink, clear the registry). -/
def playNextSong (loop : Bool) (catalog : List String) (trackChunks : String → List Nat)
    (st : PlayerState) : Except JsError (PlayerState × List Ev) :=
  if st.songs.isEmpty then
    if loop then startTrack trackChunks { st with songs := catalog }
    else
      match st.currentSongStream with
      | none => Except.error JsError.typeError
      | some _ =>
        Except.ok ({ st with currentSongStream := none, playing := false, sinks := [] },
          Ev.streamDestroyed :: endAllEvents st.sinks)
  else startTrack trackChunks st

/-- The `"end"` handler registered in `playNextSong`: when the playing flag
was cleared in the meantime (a graceful stop), destroy the stream, end every
sink and clear the registry; otherwise advance to the next track. -/
def onStreamEnd (loop : Bool) (catalog : List String) (trackChunks : String → List Nat)
    (st : PlayerState) : Except JsError (PlayerState × List Ev) :=
  if !st.playing then
    match st.currentSongStream with
    | none => Except.error JsError.typeError
    | some _ =>
      Except.ok ({ st with currentSongStream := none, sinks := [] },
        Ev.streamDestroyed :: endAllEvents st.sinks)
  else playNextSong loop catalog trackChunks st

/-- The `"data"` handler registered in `playNextSong`: broadcast the chunk
to every registered sink. The events record one write attempt per sink. -/
def onData (st : PlayerState) (c : Nat) : PlayerState × List Ev :=
  ({ st with sinks := broadcastChunk st.sinks c },
    st.sinks.map (fun p => Ev.wrote p.1 c))

/-- Run the `"data"` handler once for each remaining chunk of the current
track, in order, accumulating states and events. -/
def drainData (st : PlayerState) : List Nat → PlayerState × List Ev
  | [] => (st, [])
  | c :: rest =>
    let s1 := onData st c
    let r := drainData s1.1 rest
    (r.1, s1.2 ++ r.2)

/-- Play the current track to its natural end: every remaining chunk goes
through the `"data"` handler, then the `"end"` handler fires. -/
def drainCurrent (loop : Bool) (catalog : List String) (trackChunks : String → List Nat)
    (st : PlayerState) : Except JsError (PlayerState × List Ev) :=
  match st.currentSongStream with
  | none => Except.error JsError.typeError
  | some cs =>
    let r := drainData st cs
    match onStreamEnd loop catalog trackChunks r.1 with
    | Except.error e => Except.error e
    | Except.ok r2 => Except.ok (r2.1, r.2 ++ r2.2)

/-- The read of `this.playing` in `WebRadio.start`: `WebRadio` never assigns
a `playing` property on itself (the flag lives on `this.player`), so the
read yields `undefined`, which is falsy. -/
def webRadioThisPlaying : Bool := false

/-- `Player.start`: repopulate the queue from `readSongs()` (the `catalog`
parameter) and call `playNextSong`. -/
def playerStart (loop : Bool) (catalog : List String) (trackChunks : String → List Nat)
    (st : PlayerState) : Except JsError (PlayerState × List Ev) :=
  playNextSong loop catalog trackChunks { st with songs := catalog }

/-- `WebRadio.start`: throws the already-playing error when
`this.playing || (this.player._currentSongStream !== null)`, otherwise
delegates to `Player.start`. -/
def webRadioStart (loop : Bool) (catalog : List String) (trackChunks : String → List Nat)
    (st : PlayerState) : Except JsError (PlayerState × List Ev) :=
  if webRadioThisPlaying || st.currentSongStream.isSome then
    Except.error JsError.alreadyPlaying
  else playerStart loop catalog trackChunks st

/-- Result of the `connect()` middleware for one request. -/
inductive ConnectOutcome where
  | offline503 : ConnectOutcome
  | connected (id : String) (st : PlayerState) : ConnectOutcome
deriving DecidableEq, Repr

/-- The middleware returned by `WebRadio.connect`, with the random sink id
passed explicitly: respond 503 when
`!this.player.playing && (this.player._currentSongStream === null)`,
otherwise register a fresh response sink. -/
def connectMiddleware (freshId : String) (st : PlayerState) : ConnectOutcome :=
  if !st.playing && st.currentSongStream.isNone then ConnectOutcome.offline503
  else ConnectOutcome.connected freshId
    { st with sinks := (createResponseSink freshId st.sinks).1 }

/-- The player state after a method call that may have thrown: a thrown
contract error leaves the state as it was. -/
def applyResult (st : PlayerState) (r : Except JsError (PlayerState × List Ev)) : PlayerState :=
  match r with
  | Except.error _ => st
  | Except.ok p => p.1

/-- Repeated broadcasting of a chunk sequence over a registry. -/
def writeAll (sinks : Registry) (cs : List Nat) : Registry :=
  cs.foldl broadcastChunk sinks

/-! ## Concrete states for witnesses and counterexamples -/

/-- A two-listener registry. -/
def demoRegistry : Registry := [("a", freshSink), ("b", freshSink)]

/-- A sink with a broken channel. -/
def brokenSink : Sink := { written := [], failed := true, destroyed := false }

/-- A registry whose first sink has a broken channel. -/
def demoFailedReg : Registry := [("bad", brokenSink), ("ok", freshSink)]

/-- The state reached by `stop(true)` mid-track (the graceful-stop window):
queue cleared, playing flag down, the current stream still open with
remaining chunks, one listener registered. -/
def gracefulWindowState : PlayerState :=
  { currentSongStream := some [10, 20], sinks := [("a", freshSink)], songs := [],
    currentSong := some "song.mp3", playing := false }

/-- A state in the middle of a track with a further track queued. -/
def playingDemo : PlayerState :=
  { currentSongStream := some [1, 2], sinks := demoRegistry, songs := ["next.mp3"],
    currentSong := some "cur.mp3", playing := true }

/-- A state in the middle of the last track, queue exhausted. -/
def exhaustedDemo : PlayerState :=
  { currentSongStream := some [7], sinks := demoRegistry, songs := [],
    currentSong := some "last.mp3", playing := true }

/-- The state of a never-started or fully stopped player. -/
def idleDemo : PlayerState :=
  { currentSongStream := none, sinks := [], songs := [], currentSong := none,
    playing := false }

/-! ## Helper lemmas -/

/-- Broadcasting never changes the key side of the registry: any function of
the keys is unchanged. -/
theorem broadcastChunk_map_key {α : Type} (f : String → α) (sinks : Registry) (c : Nat) :
    (broadcastChunk sinks c).map (fun p => f p.1) = sinks.map (fun p => f p.1) := by
  simp [broadcastChunk, List.map_map, Function.comp]

/-- Broadcasting preserves the key list itself. -/
theorem broadcastChunk_keys (sinks : Registry) (c : Nat) :
    (broadcastChunk sinks c).map Prod.fst = sinks.map Prod.fst :=
  broadcastChunk_map_key (fun x => x) sinks c

/-- Repeated broadcasting also preserves any function of the keys. -/
theorem writeAll_map_key {α : Type} (f : String → α) (cs : List Nat) (sinks : Registry) :
    (writeAll sinks cs).map (fun p => f p.1) = sinks.map (fun p => f p.1) := by
  induction cs generalizing sinks with
  | nil => rfl
  | cons c rest ih =>
    calc (writeAll (broadcastChunk sinks c) rest).map (fun p => f p.1)
        = (broadcastChunk sinks c).map (fun p => f p.1) := ih (broadcastChunk sinks c)
      _ = sinks.map (fun p => f p.1) := broadcastChunk_map_key f sinks c

/-- Characterisation of a full run of the `"data"` handler over a chunk
list: only the sinks change (every chunk is written to every sink), and the
trace is one write event per registered sink per chunk, in order. -/
theorem drainData_spec (cs : List Nat) (st : PlayerState) :
    drainData st cs =
      ({ st with sinks := writeAll st.sinks cs },
        cs.flatMap fun c => st.sinks.map fun p => Ev.wrote p.1 c) := by
  induction cs generalizing st with
  | nil => rfl
  | cons c rest ih =>
    simp only [drainData, onData, ih, writeAll, List.foldl_cons, List.flatMap_cons,
      Prod.mk.injEq]
    refine ⟨trivial, ?_⟩
    have hkey : ∀ c2 : Nat, (broadcastChunk st.sinks c).map (fun p => Ev.wrote p.1 c2)
        = st.sinks.map (fun p => Ev.wrote p.1 c2) :=
      fun c2 => broadcastChunk_map_key (fun id => Ev.wrote id c2) st.sinks c
    simp [hkey]

/-- When the playing flag is already down, playing the current track to its
end broadcasts every remaining chunk to every registered sink and then tears
the player down: stream destroyed and cleared, every sink ended, registry
cleared. -/
theorem drainCurrent_teardown (loop : Bool) (catalog : List String)
    (trackChunks : String → List Nat) (st : PlayerState) (cs : List Nat)
    (hp : st.playing = false) (hs : st.currentSongStream = some cs) :
    drainCurrent loop catalog trackChunks st =
      Except.ok ({ st with currentSongStream := none, sinks := [] },
        (cs.flatMap fun c => st.sinks.map fun p => Ev.wrote p.1 c)
          ++ Ev.streamDestroyed :: endAllEvents st.sinks) := by
  have hend : endAllEvents (writeAll st.sinks cs) = endAllEvents st.sinks :=
    writeAll_map_key Ev.sinkEnded cs st.sinks
  simp [drainCurrent, hs, drainData_spec, onStreamEnd, hp, endAllEvents] at hend ⊢
  simpa [endAllEvents] using hend

/-- The absent of a key makes `Map.delete` the identity. -/
theorem mapDelete_absent (sinks : Registry) (id : String)
    (h : mapGet sinks id = none) : mapDelete sinks id = sinks := by
  rw [mapDelete, List.filter_eq_self]
  intro a ha
  have hf : sinks.find? (fun p => p.1 == id) = none := by
    unfold mapGet at h
    exact Option.map_eq_none'.mp h
  have := List.find?_eq_none.mp hf a ha
  simpa using this

/-- `Map.delete` is idempotent. -/
theorem mapDelete_idem (sinks : Registry) (id : String) :
    mapDelete (mapDelete sinks id) id = mapDelete sinks id := by
  induction sinks with
  | nil => rfl
  | cons p rest ih =>
    by_cases h : p.1 = id <;> simp [mapDelete, h, ih]

/-- `Map.set` with a fresh key appends the new binding. -/
theorem mapSet_fresh (sinks : Registry) (id : String) (v : Sink)
    (h : ∀ p ∈ sinks, p.1 ≠ id) : mapSet sinks id v = sinks ++ [(id, v)] := by
  have hany : sinks.any (fun p => p.1 == id) = false := by
    rw [List.any_eq_false]
    intro p hp
    simpa using h p hp
  simp [mapSet, hany]

/-! ## Claim theorems -/

/-- C1 (counterexample): in the graceful-stop window (after `stop(true)`,
current track still streaming), a further `stop(false)` does NOT perform the
claimed immediate transition to Stopped: `WebRadio.stop` sees
`player.playing === false` and throws the not-playing error, so the sink is
neither ended nor removed and the state is unchanged. -/
theorem stop_false_in_graceful_window_errors :
    webRadioStop false gracefulWindowState = Except.error JsError.notPlaying ∧
    applyResult gracefulWindowState (webRadioStop false gracefulWindowState) =
      gracefulWindowState := by
  exact ⟨rfl, rfl⟩

/-- C1 (amended): `stop(graceful=false)` performs the immediate teardown —
queue cleared, stream destroyed and cleared, every sink ended, registry
cleared, playing flag down — only from the Playing state; called in the
graceful-stop window (playing flag already down) it raises the not-playing
error instead and changes nothing. -/
theorem stop_false_behavior_amended (st : PlayerState) (cs : List Nat) :
    (st.playing = false → webRadioStop false st = Except.error JsError.notPlaying) ∧
    (st.playing = true → st.currentSongStream = some cs →
      webRadioStop false st =
        Except.ok ({ st with
            songs := [],
            playing := false,
            currentSongStream := none,
            sinks := [] },
          Ev.streamDestroyed :: endAllEvents st.sinks)) := by
  constructor
  · intro h
    simp [webRadioStop, h]
  · intro h hs
    simp [webRadioStop, playerStop, h, hs]

/-- C1 (witness): the amended statement at the concrete graceful-window and
mid-playback states. -/
theorem stop_false_behavior_amended_witness :
    webRadioStop false gracefulWindowState = Except.error JsError.notPlaying ∧
    webRadioStop false playingDemo =
      Except.ok ({ playingDemo with
          songs := [],
          playing := false,
          currentSongStream := none,
          sinks := [] },
        Ev.streamDestroyed :: endAllEvents playingDemo.sinks) :=
  ⟨(stop_false_behavior_amended gracefulWindowState []).1 rfl,
   (stop_false_behavior_amended playingDemo [1, 2]).2 rfl rfl⟩

/-- C2 (counterexample): with no configured bitrate, a probe that resolves
with a first stream whose `bit_rate` field is missing makes `getBitRate`
return NaN, not the claimed 128000: `parseInt(undefined)` is NaN and NaN is
not an exception, so the catch never fires. -/
theorem getBitRate_missing_field_nan :
    getBitRate OptVal.undef (ProbeResult.resolve [none]) = JsNum.nan ∧
    JsNum.nan ≠ JsNum.int 128000 := by
  exact ⟨rfl, by decide⟩

/-- C2 (amended): a truthy configured bitrate is returned as-is regardless
of the probe; absent a configured value, a probing failure that throws
(tool error, or an empty `streams` array) yields exactly 128000 and no error
propagates; but a probe that resolves with a first stream lacking a
`bit_rate` field yields NaN rather than 128000 (still with no outward
failure — the embedding is a total function). -/
theorem getBitRate_amended (n : Int) (p : ProbeResult) (rest : List (Option String)) :
    (n ≠ 0 → getBitRate (OptVal.num n) p = JsNum.int n) ∧
    getBitRate OptVal.undef ProbeResult.reject = JsNum.int 128000 ∧
    getBitRate OptVal.undef (ProbeResult.resolve []) = JsNum.int 128000 ∧
    getBitRate OptVal.undef (ProbeResult.resolve (none :: rest)) = JsNum.nan := by
  refine ⟨?_, rfl, rfl, rfl⟩
  intro h
  simp [getBitRate, truthy, parseIntOfVal, h]

/-- C2 (witness): the amended statement at a concrete configured bitrate and
a concrete probe failure. -/
theorem getBitRate_amended_witness :
    getBitRate (OptVal.num 320000) (ProbeResult.resolve [some "1"]) = JsNum.int 320000 ∧
    getBitRate OptVal.undef ProbeResult.reject = JsNum.int 128000 :=
  ⟨(getBitRate_amended 320000 (ProbeResult.resolve [some "1"]) []).1 (by decide),
   (getBitRate_amended 320000 ProbeResult.reject []).2.1⟩

/-- C3: `stop(true)` mid-track clears the queue and the playing flag but
leaves the stream open; playing the current track to its natural end then
broadcasts every remaining chunk to every registered sink (in order), starts
no new track, and only afterwards ends every sink and clears the registry. -/
theorem graceful_stop_drains_current_track (loop : Bool) (catalog : List String)
    (trackChunks : String → List Nat) (st : PlayerState) (cs : List Nat)
    (h1 : st.playing = true) (h2 : st.currentSongStream = some cs) :
    webRadioStop true st = Except.ok ({ st with songs := [], playing := false }, []) ∧
    drainCurrent loop catalog trackChunks { st with songs := [], playing := false } =
      Except.ok ({ st with
          songs := [],
          playing := false,
          currentSongStream := none,
          sinks := [] },
        (cs.flatMap fun c => st.sinks.map fun p => Ev.wrote p.1 c)
          ++ Ev.streamDestroyed :: endAllEvents st.sinks) ∧
    (∀ s, Ev.trackStarted s ∉
      (cs.flatMap fun c => st.sinks.map fun p => Ev.wrote p.1 c)
        ++ Ev.streamDestroyed :: endAllEvents st.sinks) := by
  refine ⟨?_, ?_, ?_⟩
  · simp [webRadioStop, playerStop, h1]
  · exact drainCurrent_teardown loop catalog trackChunks
      { st with songs := [], playing := false } cs rfl h2
  · intro s
    simp [endAllEvents, List.mem_append, List.mem_flatMap, List.mem_map]

/-- C3 (witness): the graceful-stop drain at a concrete two-listener state. -/
theorem graceful_stop_drains_current_track_witness :
    webRadioStop true playingDemo =
      Except.ok ({ playingDemo with songs := [], playing := false }, []) ∧
    drainCurrent true ["r.mp3"] (fun _ => [9]) { playingDemo with songs := [], playing := false } =
      Except.ok ({ playingDemo with
          songs := [],
          playing := false,
          currentSongStream := none,
          sinks := [] },
        ([1, 2].flatMap fun c => playingDemo.sinks.map fun p => Ev.wrote p.1 c)
          ++ Ev.streamDestroyed :: endAllEvents playingDemo.sinks) ∧
    (∀ s, Ev.trackStarted s ∉
      ([1, 2].flatMap fun c => playingDemo.sinks.map fun p => Ev.wrote p.1 c)
        ++ Ev.streamDestroyed :: endAllEvents playingDemo.sinks) :=
  graceful_stop_drains_current_track true ["r.mp3"] (fun _ => [9]) playingDemo [1, 2] rfl rfl

/-- C4: when the current track ends with the playing flag up, the queue
empty and looping disabled, the engine stops: the byte source is destroyed
and cleared, every registered sink is ended, the registry is cleared and the
playing flag goes down. -/
theorem exhaustion_without_loop_stops (catalog : List String)
    (trackChunks : String → List Nat) (st : PlayerState) (cs : List Nat)
    (h1 : st.playing = true) (h2 : st.songs = []) (h3 : st.currentSongStream = some cs) :
    onStreamEnd false catalog trackChunks st =
      Except.ok ({ st with currentSongStream := none, playing := false, sinks := [] },
        Ev.streamDestroyed :: endAllEvents st.sinks) := by
  simp [onStreamEnd, playNextSong, h1, h2, h3]

/-- C4 (witness): the exhaustion transition at a concrete state. -/
theorem exhaustion_without_loop_stops_witness :
    onStreamEnd false ["x.mp3"] (fun _ => [3]) exhaustedDemo =
      Except.ok ({ exhaustedDemo with
          currentSongStream := none,
          playing := false,
          sinks := [] },
        Ev.streamDestroyed :: endAllEvents exhaustedDemo.sinks) :=
  exhaustion_without_loop_stops ["x.mp3"] (fun _ => [3]) exhaustedDemo [7] rfl rfl rfl

/-- C5 (code bug): `readSongs` does not exclude non-file entries. The filter
reads `item.isFile` without calling it, so a directory entry named
`music.mp3` that is not a file is still listed as a track, contrary to the
claim (and to the evident intent of requesting `withFileTypes`). -/
theorem readSongs_includes_nonfile_entry :
    readSongs false [{ name := "music.mp3", isFile := false }] (fun _ => 0) = ["music.mp3"] ∧
    isFileMethodRefTruthy { name := "music.mp3", isFile := false } = true := by
  exact ⟨rfl, rfl⟩

/-- C6: `start()` while a track is active raises the already-playing error
and `stop()` while the playing flag is down raises the not-playing error;
in both cases no state changes. The start guard actually tests
`_currentSongStream !== null` (its `this.playing` read is undefined), which
is non-null whenever the engine is playing. -/
theorem start_stop_contract_errors (loop : Bool) (catalog : List String)
    (trackChunks : String → List Nat) (g : Bool) (st : PlayerState) :
    (st.playing = true → st.currentSongStream.isSome = true →
      webRadioStart loop catalog trackChunks st = Except.error JsError.alreadyPlaying ∧
      applyResult st (webRadioStart loop catalog trackChunks st) = st) ∧
    (st.playing = false →
      webRadioStop g st = Except.error JsError.notPlaying ∧
      applyResult st (webRadioStop g st) = st) := by
  constructor
  · intro _ hs
    have herr : webRadioStart loop catalog trackChunks st = Except.error JsError.alreadyPlaying := by
      simp [webRadioStart, webRadioThisPlaying, hs]
    exact ⟨herr, by simp [applyResult, herr]⟩
  · intro h
    have herr : webRadioStop g st = Except.error JsError.notPlaying := by
      simp [webRadioStop, h]
    exact ⟨herr, by simp [applyResult, herr]⟩

/-- C6 (witness): the two contract errors at concrete states. -/
theorem start_stop_contract_errors_witness :
    webRadioStart true ["x.mp3"] (fun _ => [1]) playingDemo =
      Except.error JsError.alreadyPlaying ∧
    webRadioStop false idleDemo = Except.error JsError.notPlaying :=
  ⟨((start_stop_contract_errors true ["x.mp3"] (fun _ => [1]) false playingDemo).1 rfl rfl).1,
   ((start_stop_contract_errors true ["x.mp3"] (fun _ => [1]) false idleDemo).2 rfl).1⟩

/-- C7 (counterexample): `broadcastChunk` does NOT treat a failing sink as
removed: after broadcasting over a registry whose first sink has a broken
channel, that sink is still registered under its id. -/
theorem broadcast_keeps_failed_sink :
    (broadcastChunk demoFailedReg 7).map Prod.fst = ["bad", "ok"] ∧
    mapGet (broadcastChunk demoFailedReg 7) "bad" = some brokenSink := by
  exact ⟨rfl, rfl⟩

/-- C7 (amended): a write failure on one sink does not abort delivery of the
chunk to the other registered sinks — every healthy sink still receives the
chunk — but the failing sink is not removed by the broadcast loop: the key
list is unchanged and the failed sink stays registered (it is removed only
when `removeResponseSink` is called for it on external disconnect). -/
theorem broadcast_failure_isolation_amended (sinks : Registry) (c : Nat)
    (id : String) (s : Sink) :
    (broadcastChunk sinks c).map Prod.fst = sinks.map Prod.fst ∧
    ((id, s) ∈ sinks → s.failed = false →
      (id, { s with written := s.written ++ [c] }) ∈ broadcastChunk sinks c) ∧
    ((id, s) ∈ sinks → s.failed = true → (id, s) ∈ broadcastChunk sinks c) := by
  refine ⟨broadcastChunk_keys sinks c, ?_, ?_⟩
  · intro hm hf
    have := List.mem_map_of_mem (fun p => (p.1, sinkWrite p.2 c)) hm
    simpa [broadcastChunk, sinkWrite, hf] using this
  · intro hm hf
    have := List.mem_map_of_mem (fun p => (p.1, sinkWrite p.2 c)) hm
    simpa [broadcastChunk, sinkWrite, hf] using this

/-- C7 (witness): the amended statement at the concrete broken registry. -/
theorem broadcast_failure_isolation_amended_witness :
    (broadcastChunk demoFailedReg 7).map Prod.fst = demoFailedReg.map Prod.fst ∧
    ("ok", { freshSink with written := freshSink.written ++ [7] }) ∈
      broadcastChunk demoFailedReg 7 ∧
    ("bad", brokenSink) ∈ broadcastChunk demoFailedReg 7 :=
  ⟨(broadcast_failure_isolation_amended demoFailedReg 7 "ok" freshSink).1,
   (broadcast_failure_isolation_amended demoFailedReg 7 "ok" freshSink).2.1
     (by decide) rfl,
   (broadcast_failure_isolation_amended demoFailedReg 7 "bad" brokenSink).2.2
     (by decide) rfl⟩

/-- C8: `removeResponseSink` destroys and deletes a present sink, leaves the
registry unchanged for an absent id, and is idempotent on the registry state
for every registry and every id. -/
theorem removeResponseSink_idempotent (sinks : Registry) (id : String) :
    (∀ s, mapGet sinks id = some s →
      removeResponseSink sinks id = (mapDelete sinks id, some (sinkDestroy s))) ∧
    (mapGet sinks id = none → removeResponseSink sinks id = (sinks, none)) ∧
    (removeResponseSink (removeResponseSink sinks id).1 id).1 =
      (removeResponseSink sinks id).1 := by
  refine ⟨?_, ?_, ?_⟩
  · intro s h
    simp [removeResponseSink, h]
  · intro h
    simp [removeResponseSink, h, mapDelete_absent sinks id h]
  · have h1 : ∀ r : Registry, (removeResponseSink r id).1 = mapDelete r id := by
      intro r
      unfold removeResponseSink
      cases mapGet r id <;> rfl
    rw [h1, h1]
    exact mapDelete_idem sinks id

/-- C8 (witness): removal at a concrete registry, for a present id and for
an absent one. -/
theorem removeResponseSink_idempotent_witness :
    removeResponseSink demoRegistry "a" =
      (mapDelete demoRegistry "a", some (sinkDestroy freshSink)) ∧
    removeResponseSink demoRegistry "zz" = (demoRegistry, none) :=
  ⟨(removeResponseSink_idempotent demoRegistry "a").1 freshSink (by decide),
   (removeResponseSink_idempotent demoRegistry "zz").2.1 (by decide)⟩

/-- C9: in the graceful-stop window the radio still looks online to the
public interface: `connect()` registers a fresh listener (no 503, because
the byte source is still non-null), that listener receives every remaining
chunk of the current track and is then ended, while `start()` in the same
window raises the already-playing error. -/
theorem graceful_window_still_online (loop : Bool) (catalog : List String)
    (trackChunks : String → List Nat) (st : PlayerState) (cs : List Nat) (newId : String)
    (h1 : st.playing = false) (h2 : st.currentSongStream = some cs)
    (h3 : ∀ p ∈ st.sinks, p.1 ≠ newId) :
    connectMiddleware newId st =
      ConnectOutcome.connected newId { st with sinks := st.sinks ++ [(newId, freshSink)] } ∧
    webRadioStart loop catalog trackChunks st = Except.error JsError.alreadyPlaying ∧
    (∃ stFin trace,
      drainCurrent loop catalog trackChunks
          { st with sinks := st.sinks ++ [(newId, freshSink)] } =
        Except.ok (stFin, trace) ∧
      (∀ c ∈ cs, Ev.wrote newId c ∈ trace) ∧ Ev.sinkEnded newId ∈ trace) := by
  refine ⟨?_, ?_, ?_⟩
  · simp [connectMiddleware, createResponseSink, h1, h2, mapSet_fresh st.sinks newId freshSink h3]
  · simp [webRadioStart, webRadioThisPlaying, h2]
  · refine ⟨_, _, drainCurrent_teardown loop catalog trackChunks
      { st with sinks := st.sinks ++ [(newId, freshSink)] } cs h1 h2, ?_, ?_⟩
    · intro c hc
      refine List.mem_append.mpr (Or.inl ?_)
      refine List.mem_flatMap.mpr ⟨c, hc, ?_⟩
      exact List.mem_map.mpr ⟨(newId, freshSink), by simp, rfl⟩
    · refine List.mem_append.mpr (Or.inr ?_)
      simp [endAllEvents]

/-- C9 (witness): the graceful-window behavior at the concrete window
state with a fresh listener id. -/
theorem graceful_window_still_online_witness :
    connectMiddleware "c" gracefulWindowState =
      ConnectOutcome.connected "c"
        { gracefulWindowState with
            sinks := gracefulWindowState.sinks ++ [("c", freshSink)] } ∧
    webRadioStart true ["r.mp3"] (fun _ => [9]) gracefulWindowState =
      Except.error JsError.alreadyPlaying ∧
    (∃ stFin trace,
      drainCurrent true ["r.mp3"] (fun _ => [9])
          { gracefulWindowState with
              sinks := gracefulWindowState.sinks ++ [("c", freshSink)] } =
        Except.ok (stFin, trace) ∧
      (∀ c ∈ [10, 20], Ev.wrote "c" c ∈ trace) ∧ Ev.sinkEnded "c" ∈ trace) :=
  graceful_window_still_online true ["r.mp3"] (fun _ => [9]) gracefulWindowState
    [10, 20] "c" rfl rfl (by decide)

/-- C10: a configured bitrate of 0 passes the constructor validation (0 is
falsy, so the number-type check is skipped) and `getBitRate` then behaves
exactly as if no bitrate had been configured: it probes, and on probe
failure (rejection) falls back to 128000 rather than returning 0. -/
theorem zero_bitrate_treated_as_unset (p : ProbeResult) :
    bitrateValidationRejects (OptVal.num 0) = false ∧
    getBitRate (OptVal.num 0) p = getBitRate OptVal.undef p ∧
    getBitRate (OptVal.num 0) ProbeResult.reject = JsNum.int 128000 := by
  exact ⟨rfl, rfl, rfl⟩

end WebRadioModel
